import Mathlib

/-
Verification of the empty-option crate (src/lib.rs): guards for temporarily
stealing the value out of an `Option<T>` slot.

Shallow embedding conventions:
  * A Rust `&mut Option<T>` slot is modelled by explicit state passing of its
    contents (`Option T` in, `Option T` out).
  * A Rust panic is modelled as `Except.error msg`, carrying the exact panic
    message from the source; `Except.ok` is normal completion.  An error
    aborts the operation, so nothing after a panic point is modelled as
    running.
  * `OptionGuard<'a, T>` holds only the slot reference; in the embedding its
    operations act directly on the slot contents.
  * `OptionGuardMut<'a, T>` is embedded as a structure with the source's two
    fields: `origin` (the contents of the borrowed slot, always `none` while
    the guard is live, since `steal_mut` empties the slot) and `value` (the
    internal holder `Option<T>`).
-/

namespace EmptyOption

/-- Panic message of `steal` on an empty slot:
`self.take().expect("attempted to steal from None")` (src/lib.rs:251). -/
def stealNoneMsg : String := "attempted to steal from None"

/-- Panic message of `Drop for OptionGuard` (src/lib.rs:150). -/
def unrestoredMsg : String := "`Some` value was never restored to a victimized Option!"

/-- Panic message of `Option::unwrap` on `None`, raised by `into_inner`,
`deref` and `deref_mut` of `OptionGuardMut` when the internal holder is
empty (src/lib.rs:226, 235, 242). -/
def unwrapNoneMsg : String := "called `Option::unwrap()` on a `None` value"

/-- Embedding of `EmptyOptionExt::steal for Option<T>` (src/lib.rs:250-253):
`let value = self.take().expect("attempted to steal from None");
(OptionGuard::new(self), value)`.  Returns the new slot contents (the slot
is emptied by `take`) paired with the stolen value; panics when the slot is
already `None`.  The returned `OptionGuard` holds only the slot reference,
which the explicit state passing already represents. -/
def steal {T : Type} (slot : Option T) : Except String (Option T × T) :=
  match slot with
  | some v => Except.ok (none, v)
  | none => Except.error stealNoneMsg

/-- Embedding of `OptionGuard::restore` (src/lib.rs:164-168):
`*self.opt = Some(obj); mem::forget(self);`.  Writes `Some obj` into the
slot regardless of its current contents and structurally skips the guard's
panicking `Drop` via `mem::forget`, so it always completes normally: the
result is always `Except.ok` with the new slot contents. -/
def OptionGuard.restore {T : Type} (obj : T) : Except String (Option T) :=
  Except.ok (some obj)

/-- Embedding of `Drop for OptionGuard` (src/lib.rs:148-152): the drop glue
unconditionally panics with `unrestoredMsg`; it does not touch the slot. -/
def OptionGuard.dropRun : Except String Unit :=
  Except.error unrestoredMsg

/-- Embedding of `OptionGuardMut<'a, T>` (src/lib.rs:210-213): `origin` is
the contents of the borrowed slot, `value` is the internal holder. -/
structure OptionGuardMut (T : Type) where
  origin : Option T
  value : Option T
deriving Repr, DecidableEq

/-- Embedding of `EmptyOptionExt::steal_mut for Option<T>`
(src/lib.rs:255-262): `let value = self.take(); OptionGuardMut { origin:
self, value }`.  Total: no precondition, no panic path.  `take` leaves the
slot empty, so `origin` is `none` and the holder receives whatever the slot
held (possibly `none`). -/
def steal_mut {T : Type} (slot : Option T) : OptionGuardMut T :=
  { origin := none, value := slot }

/-- Embedding of `Drop for OptionGuardMut` (src/lib.rs:216-220):
`*self.origin = self.value.take();`.  Returns the final contents of the
slot once the guard is gone: exactly the internal holder's contents.
Total: this drop never panics. -/
def OptionGuardMut.dropRun {T : Type} (g : OptionGuardMut T) : Option T :=
  g.value

/-- Embedding of `Deref for OptionGuardMut` (src/lib.rs:231-237):
`self.value.as_ref().unwrap()`.  Takes `&self`, so it cannot mutate
anything: on success it returns the held value together with the guard,
which is returned unchanged; it panics when the holder is empty. -/
def OptionGuardMut.deref {T : Type} (g : OptionGuardMut T) :
    Except String (T × OptionGuardMut T) :=
  match g.value with
  | some v => Except.ok (v, g)
  | none => Except.error unwrapNoneMsg

/-- Embedding of `DerefMut for OptionGuardMut` (src/lib.rs:240-244):
`self.value.as_mut().unwrap()`.  A `&mut T` is modelled as a lens: the
current value plus the writer that replaces the holder's contents; it
panics when the holder is empty. -/
def OptionGuardMut.deref_mut {T : Type} (g : OptionGuardMut T) :
    Except String (T × (T → OptionGuardMut T)) :=
  match g.value with
  | some v => Except.ok (v, fun v2 => { g with value := some v2 })
  | none => Except.error unwrapNoneMsg

/-- The assignment `*guard = v2`: obtain the mutable reference through
`deref_mut` and write `v2` through it.  Fails exactly when `deref_mut`
fails. -/
def OptionGuardMut.write {T : Type} (g : OptionGuardMut T) (v2 : T) :
    Except String (OptionGuardMut T) :=
  match OptionGuardMut.deref_mut g with
  | Except.ok p => Except.ok (p.2 v2)
  | Except.error e => Except.error e

/-- Embedding of `OptionGuardMut::into_inner` (src/lib.rs:225-227):
`self.value.take().unwrap()`.  `take` empties the holder, `unwrap` panics
if it held nothing; then `self` goes out of scope and its `Drop` runs,
writing the now-empty holder into the slot.  On success the result pairs
the final slot contents (always `none`) with the extracted value. -/
def OptionGuardMut.into_inner {T : Type} (g : OptionGuardMut T) :
    Except String (Option T × T) :=
  match g.value with
  | some v => Except.ok (OptionGuardMut.dropRun { g with value := none }, v)
  | none => Except.error unwrapNoneMsg

/-- C1.  Round-trip for the strict guard: for every slot holding `some v`
and every value `v2`, `steal` returns the value `v` and leaves the slot
empty, and `restore v2` on the returned guard completes normally (the
guard's panicking drop is skipped by `mem::forget`, so the result is `ok`)
and leaves the slot holding exactly `some v2`. -/
theorem steal_then_restore_roundtrip {T : Type} (v v2 : T) :
    steal (some v) = Except.ok (none, v) ∧
    OptionGuard.restore (T := T) v2 = Except.ok (some v2) :=
  ⟨rfl, rfl⟩

/-- C2.  Auto-return default behavior: for every value `v`, `steal_mut` on a
slot holding `some v` empties the slot and puts `v` in the guard's holder;
writing `v2` through the mutable dereference succeeds and replaces the held
value; dropping the guard without `into_inner` writes the held value back,
leaving the slot holding exactly `some v2`. -/
theorem steal_mut_write_then_drop {T : Type} (v v2 : T) :
    steal_mut (some v) = ⟨none, some v⟩ ∧
    OptionGuardMut.write (steal_mut (some v)) v2 = Except.ok ⟨none, some v2⟩ ∧
    OptionGuardMut.dropRun (⟨none, some v2⟩ : OptionGuardMut T) = some v2 :=
  ⟨rfl, rfl, rfl⟩

/-- C3.  Auto-return keep behavior: for every value `v`, `steal_mut` on a
slot holding `some v` followed by `into_inner` returns exactly `v` with no
panic (the result is `ok`), and the slot is left holding `none` once the
guard's scope ends (the drop inside `into_inner` writes the emptied holder
back). -/
theorem steal_mut_into_inner_keep {T : Type} (v : T) :
    steal_mut (some v) = ⟨none, some v⟩ ∧
    OptionGuardMut.into_inner (steal_mut (some v)) = Except.ok (none, v) :=
  ⟨rfl, rfl⟩

/-- C4.  Strict-guard-must-restore: for every value `v`, `steal` on a slot
holding `some v` yields a guard, and letting that guard go out of scope
without `restore` runs its drop, which panics with the descriptive message
`unrestoredMsg`.  In the embedding a panic is an `Except.error` that aborts
the operation, so it fires exactly once and no subsequent code runs. -/
theorem unrestored_guard_drop_panics {T : Type} (v : T) :
    steal (some v) = Except.ok (none, v) ∧
    OptionGuard.dropRun = Except.error unrestoredMsg :=
  ⟨rfl, rfl⟩

/-- C5.  Strict precondition of `steal`: calling `steal` on an empty slot
panics with the descriptive message `stealNoneMsg`; it does not return a
guard or a value. -/
theorem steal_from_none_fatal (T : Type) :
    steal (none : Option T) = Except.error stealNoneMsg :=
  rfl

/-- C6.  Permissive `steal_mut`: on an empty slot it succeeds without any
error (it is a total function with no panic path), leaves the slot empty,
and returns a guard whose internal holder is empty; when that guard drops,
`none` is written back into the slot, leaving it empty. -/
theorem steal_mut_on_empty_permissive (T : Type) :
    steal_mut (none : Option T) = ⟨none, none⟩ ∧
    OptionGuardMut.dropRun (steal_mut (none : Option T)) = none :=
  ⟨rfl, rfl⟩

/-- C7.  `AutoReturnGuard` scope-end postcondition: when an `OptionGuardMut`
is dropped (not consumed by `into_inner`), the slot is set to exactly the
current contents of the guard's internal holder — `some` of the held value
if populated, `none` if empty — and `dropRun` is a total function with no
error path, so the transition is never fatal. -/
theorem drop_writes_holder_exactly {T : Type} (g : OptionGuardMut T) :
    OptionGuardMut.dropRun g = g.value :=
  rfl

/-- C8.  Access-on-empty is fatal: on a guard whose internal holder is
empty, read access (`deref`), write access (`deref_mut`) and `into_inner`
all panic with the unwrap-on-`None` message rather than returning or
silently doing nothing. -/
theorem access_on_empty_holder_fatal (T : Type) :
    OptionGuardMut.deref (⟨none, none⟩ : OptionGuardMut T) =
      Except.error unwrapNoneMsg ∧
    OptionGuardMut.deref_mut (⟨none, none⟩ : OptionGuardMut T) =
      Except.error unwrapNoneMsg ∧
    OptionGuardMut.into_inner (⟨none, none⟩ : OptionGuardMut T) =
      Except.error unwrapNoneMsg :=
  ⟨rfl, rfl, rfl⟩

/-- C9.  Frame property of read access: for an `OptionGuardMut` whose
internal holder contains `v` (and whose slot is empty, as `steal_mut`
leaves it), `deref` returns exactly `v` and changes nothing: the guard
comes back unchanged, with the holder still `some v` and the slot contents
still `none`. -/
theorem deref_reads_without_change {T : Type} (v : T) :
    OptionGuardMut.deref (⟨none, some v⟩ : OptionGuardMut T) =
      Except.ok (v, ⟨none, some v⟩) :=
  rfl

/-- C10.  `into_inner` returns the current (possibly mutated) held value,
not the originally stolen one: after `steal_mut` on a slot holding
`some v` and assigning `v2` through the mutable dereference, `into_inner`
returns exactly `v2` and the slot is left holding `none`. -/
theorem into_inner_returns_mutated_value {T : Type} (v v2 : T) :
    OptionGuardMut.write (steal_mut (some v)) v2 = Except.ok ⟨none, some v2⟩ ∧
    OptionGuardMut.into_inner (⟨none, some v2⟩ : OptionGuardMut T) =
      Except.ok (none, v2) :=
  ⟨rfl, rfl⟩

end EmptyOption
